import Mathlib

/-
  Verification of the RabbitMQ multi-node connector client
  (src/rabbit.ts, src/errors.ts) against its natural-language
  specification. The definitions below are a shallow embedding of the
  relevant source functions; JavaScript numbers are modelled as Int/Nat/Rat,
  JavaScript truthiness is modelled explicitly, thrown errors are modelled
  with Except, and the asynchronous environment (broker confirms, driver
  outcomes) is passed as explicit parameters.
-/

namespace RabbitMQ

/-! ## Errors (src/errors.ts)

`RabbitMQError` carries a `code` string and a `details` map; the plain
JavaScript `Error` carries only a message. -/

/-- A JavaScript error value: either a plain `Error` (message only) or an
instance of the `RabbitMQError` hierarchy with `name`, `code` and `details`. -/
inductive JsError where
  | plain (message : String)
  | typed (name : String) (message : String) (code : String)
      (details : List (String × String))
deriving DecidableEq, Repr

/-- The `code` field of an error, when the error is a `RabbitMQError`;
a plain `Error` has no `code` property. -/
def errorCode : JsError → Option String
  | JsError.plain _ => none
  | JsError.typed _ _ c _ => some c

/-- The error codes of the taxonomy defined in src/errors.ts. -/
def taxonomyCodes : List String :=
  ["ERR_CONNECTION", "ERR_CHANNEL", "ERR_PUBLISH", "ERR_CONSUME",
   "ERR_CIRCUIT_BREAKER", "ERR_CONFIGURATION", "ERR_RECONNECTION",
   "ERR_CLUSTER"]

/-- `CircuitBreakerError` from src/errors.ts: a typed error with code
`ERR_CIRCUIT_BREAKER`. -/
def mkCircuitBreakerError (message : String)
    (details : List (String × String)) : JsError :=
  JsError.typed "CircuitBreakerError" message "ERR_CIRCUIT_BREAKER" details

/-- `ChannelError` from src/errors.ts: a typed error with code `ERR_CHANNEL`. -/
def mkChannelError (message : String)
    (details : List (String × String)) : JsError :=
  JsError.typed "ChannelError" message "ERR_CHANNEL" details

/-! ## Metrics (rabbit.ts `Metrics`) -/

/-- The client's metrics counters; `lastReconnectTime` is a timestamp and
`avgProcessingTime` a JavaScript number (modelled as a rational). -/
structure Metrics where
  messagesSent : Nat
  messagesReceived : Nat
  errors : Nat
  reconnections : Nat
  lastReconnectTime : Option Nat
  avgProcessingTime : Rat
deriving DecidableEq, Repr

/-- A metrics record with every counter zero, as initialised by the
constructor. -/
def zeroMetrics : Metrics :=
  { messagesSent := 0, messagesReceived := 0, errors := 0,
    reconnections := 0, lastReconnectTime := none, avgProcessingTime := 0 }

/-! ## Circuit breaker (rabbit.ts `circuitBreaker`,
`handleConnectionError`, `resetCircuitBreakerState`, `connect`,
`establishConnection`) -/

/-- The circuit breaker state: failure counter, open flag, time of the
last failure. -/
structure CircuitBreaker where
  failures : Nat
  isOpen : Bool
  lastFailure : Option Nat
deriving DecidableEq, Repr

/-- The breaker state at construction. -/
def initialBreaker : CircuitBreaker :=
  { failures := 0, isOpen := false, lastFailure := none }

/-- `handleConnectionError` (rabbit.ts 1348-1364): increment `failures`,
set `isOpen` to `failures >= failureThreshold`, record `lastFailure`. -/
def handleConnectionError (threshold : Nat) (now : Nat)
    (cb : CircuitBreaker) : CircuitBreaker :=
  { failures := cb.failures + 1,
    isOpen := decide (threshold ≤ cb.failures + 1),
    lastFailure := some now }

/-- `resetCircuitBreakerState` (rabbit.ts 1314-1326): after a successful
connection the breaker is fully reset. -/
def resetCircuitBreakerState (_cb : CircuitBreaker) : CircuitBreaker :=
  { failures := 0, isOpen := false, lastFailure := none }

/-- The breaker check at the top of `connect()` (rabbit.ts 728-736):
when the breaker is open, `connect` throws the plain
`Error('Circuit breaker is open')`. -/
def connectBreakerCheck (cb : CircuitBreaker) : Except JsError Unit :=
  if cb.isOpen then Except.error (JsError.plain "Circuit breaker is open")
  else Except.ok ()

/-- The do-while loop of `establishConnection` (rabbit.ts 847-877):
starting at URL-attempt index `i` with the given remaining fuel (the loop
runs at most `MAXIMUM_INITIAL_CONNECTION_RETRIES = 5` times), returns
whether some attempt succeeded. `outcome i` is the environment's verdict
on the i-th `amqplib.connect` call. -/
def establishAttempts (outcome : Nat → Bool) : Nat → Nat → Bool
  | _, 0 => false
  | i, fuel + 1 =>
      if outcome i then true else establishAttempts outcome (i + 1) fuel

/-- `establishConnection` (rabbit.ts 827-921) restricted to its effect on
the circuit breaker: up to 5 URL attempts are made inside the loop without
touching the breaker; on overall success `resetCircuitBreakerState` runs,
on exhaustion the single catch block calls `handleConnectionError` exactly
once. Returns the new breaker state and whether the connect succeeded. -/
def establishConnection (threshold now : Nat) (cb : CircuitBreaker)
    (outcome : Nat → Bool) : CircuitBreaker × Bool :=
  if establishAttempts outcome 0 5 then (resetCircuitBreakerState cb, true)
  else (handleConnectionError threshold now cb, false)

/-- Breaker states reachable during a client's life: the initial state,
followed by any interleaving of failed outer connect cycles
(`handleConnectionError`) and successful connects
(`resetCircuitBreakerState`). -/
inductive ReachableBreaker (threshold : Nat) : CircuitBreaker → Prop where
  | init : ReachableBreaker threshold initialBreaker
  | fail (now : Nat) {cb : CircuitBreaker} :
      ReachableBreaker threshold cb →
      ReachableBreaker threshold (handleConnectionError threshold now cb)
  | reset {cb : CircuitBreaker} :
      ReachableBreaker threshold cb →
      ReachableBreaker threshold (resetCircuitBreakerState cb)

/-! ## Channel acquisition (rabbit.ts `getChannel`, 598-674) -/

/-- `getChannel`: with no connection it throws a plain Error; otherwise it
takes a free open pool channel, or creates a new one while the pool is
under `maxChannels`, or waits; if no channel becomes free before
`acquireTimeout` it rejects with the plain
`Error('Channel acquisition timeout')`. The three booleans are the
environment's answers to the three questions in that order. -/
def getChannel (connected : Bool) (freeOpenChannel : Bool)
    (poolHasCapacity : Bool) (channelFreedBeforeTimeout : Bool) :
    Except JsError Unit :=
  if connected = false then
    Except.error (JsError.plain "Not connected to RabbitMQ")
  else if freeOpenChannel then Except.ok ()
  else if poolHasCapacity then Except.ok ()
  else if channelFreedBeforeTimeout then Except.ok ()
  else Except.error (JsError.plain "Channel acquisition timeout")

/-! ## publishBatch (rabbit.ts 1804-1858) -/

/-- One entry of a `publishBatch` request. -/
structure BatchMessage where
  exchange : String
  routingKey : String
  content : List Nat
deriving DecidableEq, Repr

/-- The for-loop of `publishBatch`: each message is handed to the confirm
channel and its own broker confirm (`none` = ack, `some e` = error) is
awaited before the next message is sent; a failed confirm rejects the
promise and aborts the loop. Returns the list of messages actually handed
to the driver, in order, and the surfaced error if any. -/
def publishBatchLoop :
    List (BatchMessage × Option String) → List BatchMessage × Option String
  | [] => ([], none)
  | (m, none) :: rest =>
      let r := publishBatchLoop rest
      (m :: r.1, r.2)
  | (m, some e) :: _ => ([m], some e)

/-- `publishBatch`: run the loop; only when every message confirmed does
`metrics.messagesSent += messages.length` run; on any failure the catch
block runs `handleError` (which increments `metrics.errors`) and rethrows,
leaving `messagesSent` untouched. -/
def publishBatch (metrics : Metrics)
    (msgs : List (BatchMessage × Option String)) :
    Metrics × List BatchMessage × Option String :=
  match publishBatchLoop msgs with
  | (sent, none) =>
      ({ metrics with messagesSent := metrics.messagesSent + msgs.length },
       sent, none)
  | (sent, some e) =>
      ({ metrics with errors := metrics.errors + 1 }, sent, some e)

/-- A sample batch message. -/
def msgA : BatchMessage :=
  { exchange := "events", routingKey := "user.created", content := [1] }

/-- A second sample batch message. -/
def msgB : BatchMessage :=
  { exchange := "events", routingKey := "user.updated", content := [2] }

/-! ## Shutdown (rabbit.ts `gracefulShutdown` 1934-2015, `reconnect`
1408-1418) -/

/-- The client state relevant to shutdown and reconnection. -/
structure ClientState where
  shutdownInProgress : Bool
  reconnecting : Bool
  timerCount : Nat
  batchTimerSet : Bool
  poolChannels : Nat
  hasDefaultChannel : Bool
  hasConnection : Bool
deriving DecidableEq, Repr

/-- The state during `gracefulShutdown`, after it has set
`shutdownInProgress = true`, cleared `reconnecting` and all timers, and
while it drains in-flight messages (rabbit.ts 1943-1961). -/
def gracefulShutdownMid (s : ClientState) : ClientState :=
  { s with shutdownInProgress := true, reconnecting := false,
           timerCount := 0, batchTimerSet := false }

/-- The channel/connection teardown of `gracefulShutdown`
(rabbit.ts 1963-2004). -/
def closeResources (s : ClientState) : ClientState :=
  { s with poolChannels := 0, hasDefaultChannel := false,
           hasConnection := false }

/-- `gracefulShutdown`: a re-entrant call while a shutdown is in progress
returns immediately; otherwise the flag is set, timers are cleared,
resources are closed, and the `finally` block (rabbit.ts 2012-2014) resets
`shutdownInProgress` to `false`. -/
def gracefulShutdown (s : ClientState) : ClientState :=
  if s.shutdownInProgress then s
  else { closeResources (gracefulShutdownMid s) with
           shutdownInProgress := false }

/-- The entry check of `reconnect` (rabbit.ts 1409-1416): when
`shutdownInProgress` is set the reconnect is skipped (second component
`false`); otherwise `reconnecting` is set and the reconnect proceeds. -/
def reconnectEntry (s : ClientState) : ClientState × Bool :=
  if s.shutdownInProgress then (s, false)
  else ({ s with reconnecting := true }, true)

/-- A connected client about to be shut down. -/
def sampleClient : ClientState :=
  { shutdownInProgress := false, reconnecting := false, timerCount := 3,
    batchTimerSet := true, poolChannels := 2, hasDefaultChannel := true,
    hasConnection := true }

/-! ## publish / sendToQueue (rabbit.ts 2340-2400, 2639-2684) -/

/-- The broker's confirm for a single published message: it arrives at a
given time with an optional error, or it never arrives. -/
inductive BrokerConfirm where
  | arrives (at_ : Nat) (err : Option String)
  | never
deriving DecidableEq, Repr

/-- JavaScript `t || d` on an optional number: `undefined` and `0` both
fall back to the default. -/
def jsOrDefault (t : Option Nat) (d : Nat) : Nat :=
  match t with
  | some v => if v = 0 then d else v
  | none => d

/-- The awaited promise inside `publish`: a timer armed at
`options.timeout || 30000` ms races the confirm callback. A confirm
arriving at or after the timeout loses the race and the call fails with
the plain `Error('Publish operation timeout')`; an earlier confirm settles
the call with its own verdict. -/
def publishAwait (timeoutOpt : Option Nat) (c : BrokerConfirm) :
    Except JsError Unit :=
  let timeoutMs := jsOrDefault timeoutOpt 30000
  match c with
  | BrokerConfirm.never =>
      Except.error (JsError.plain "Publish operation timeout")
  | BrokerConfirm.arrives t err =>
      if timeoutMs ≤ t then
        Except.error (JsError.plain "Publish operation timeout")
      else
        match err with
        | some e => Except.error (JsError.plain e)
        | none => Except.ok ()

/-- The awaited promise inside `sendToQueue`: the callback alone settles
the promise — no timer is armed, and the options carry no timeout field.
When the confirm never arrives the call never settles (`none`). -/
def sendToQueueAwait (c : BrokerConfirm) : Option (Except JsError Unit) :=
  match c with
  | BrokerConfirm.never => none
  | BrokerConfirm.arrives _ err =>
      some (match err with
            | some e => Except.error (JsError.plain e)
            | none => Except.ok ())

/-! ## Option validation (rabbit.ts `validateOptions` 524-569) -/

/-- The channel pool options. -/
structure PoolConfig where
  maxChannels : Int
  acquireTimeout : Int
deriving DecidableEq, Repr

/-- The constructor options that `validateOptions` inspects. -/
structure ValidatedOptions where
  heartbeat : Option Int
  reconnectDelay : Option Int
  poolConfig : Option PoolConfig
deriving DecidableEq, Repr

/-- JavaScript truthiness of an optional number: `undefined` and `0` are
falsy. -/
def jsTruthyNum : Option Int → Bool
  | none => false
  | some v => v != 0

/-- `validateOptions`: each check is guarded by the truthiness of the
option (`if (options.heartbeat)`, `if (options.reconnectDelay)`,
`options.poolConfig?.maxChannels && ...`), so the value `0` skips every
check. Out-of-range truthy values throw in source order. -/
def validateOptions (o : ValidatedOptions) : Except String Unit :=
  if jsTruthyNum o.heartbeat &&
      (o.heartbeat.getD 0 < 1 || 60 < o.heartbeat.getD 0) then
    Except.error "Heartbeat must be between 1 and 60 seconds"
  else if jsTruthyNum o.reconnectDelay &&
      (o.reconnectDelay.getD 0 < 1000 || 60000 < o.reconnectDelay.getD 0) then
    Except.error "Reconnect delay must be between 1000 and 60000 ms"
  else if (match o.poolConfig with
           | some pc => pc.maxChannels != 0 && pc.maxChannels < 1
           | none => false) then
    Except.error "Max channels must be greater than 0"
  else Except.ok ()

/-! ## Reconnect delay (rabbit.ts `calculateReconnectDelay` 1372-1399) -/

/-- `calculateReconnectDelay`: base is `reconnectDelay || 1000`, cap
60000 ms. Without exponential backoff the base is returned unchanged.
Otherwise the exponential term `min(base * 2^attempt, 60000)` gets a
jitter of `exponential * 0.2 * (rand * 2 - 1)` with `rand` drawn from
[0, 1), and the sum is clamped into `[base, 60000]`. -/
def calculateReconnectDelay (reconnectDelay : Option Rat)
    (exponentialBackoff : Bool) (reconnectAttempts : Nat) (rand : Rat) :
    Rat :=
  let baseDelay : Rat :=
    match reconnectDelay with
    | some d => if d = 0 then 1000 else d
    | none => 1000
  if exponentialBackoff = false then baseDelay
  else
    let exponentialDelay := min (baseDelay * 2 ^ reconnectAttempts) 60000
    let jitter := exponentialDelay * (1 / 5) * (rand * 2 - 1)
    max baseDelay (min (exponentialDelay + jitter) 60000)

/-! ## Manual-ack message actions (rabbit.ts `createMessageActions`
2063-2127) -/

/-- A settlement the handler may request on a delivered message. -/
inductive SettleKind where
  | ack
  | nack (requeue : Bool)
  | reject (requeue : Bool)
deriving DecidableEq, Repr

/-- The state shared by one message's `ack`/`nack`/`reject` closures: the
`acknowledged` flag, the settlements actually forwarded to the driver
channel, and the count of `already acknowledged` warnings logged. -/
structure ActionsState where
  acknowledged : Bool
  driverCalls : List SettleKind
  warnings : Nat
deriving DecidableEq, Repr

/-- The state before the handler's first call on a fresh message. -/
def startActions : ActionsState :=
  { acknowledged := false, driverCalls := [], warnings := 0 }

/-- One call to `ack`, `nack` or `reject`: if the message is already
acknowledged, only a warning is logged; otherwise the flag is set and the
corresponding driver operation is invoked. -/
def runAction (s : ActionsState) (k : SettleKind) : ActionsState :=
  if s.acknowledged then { s with warnings := s.warnings + 1 }
  else { s with acknowledged := true, driverCalls := s.driverCalls ++ [k] }

/-- A whole sequence of handler calls on one message. -/
def runActions (s : ActionsState) : List SettleKind → ActionsState
  | [] => s
  | k :: ks => runActions (runAction s k) ks

/-! ## Constructor URL initialisation (rabbit.ts 481-488) -/

/-- An amqplib connect-options object as accepted in the `url` option. -/
structure ConnectOpts where
  protocol : Option String
  hostname : Option String
  port : Option Int
  username : Option String
  password : Option String
  vhost : Option String
deriving DecidableEq, Repr

/-- The `url` constructor option: a string or a connect-options object. -/
inductive UrlOption where
  | str (s : String)
  | obj (o : ConnectOpts)
deriving DecidableEq, Repr

/-- JavaScript truthiness of the `url` option: objects are always truthy,
strings are truthy when non-empty. -/
def urlTruthy : UrlOption → Bool
  | UrlOption.str s => s != ""
  | UrlOption.obj _ => true

/-- `typeof options.url === 'string' ? options.url : options.url.hostname`. -/
def urlField : UrlOption → Option String
  | UrlOption.str s => some s
  | UrlOption.obj o => o.hostname

/-- The URL initialisation in the constructor: when `options.url` is
truthy, `this.options.urls` becomes `[url]` when the extracted value is a
truthy string and `[]` otherwise; when `options.url` is absent or falsy
the configured `urls` list is kept. -/
def initUrls (url : Option UrlOption) (urls : List String) : List String :=
  match url with
  | none => urls
  | some u =>
      if urlTruthy u then
        match urlField u with
        | some v => if v = "" then [] else [v]
        | none => []
      else urls

/-! ## get (rabbit.ts 2706-2744) -/

/-- `get(queue)`: with no open connection or default channel it throws;
otherwise the driver's reply (`error`, a message, or empty) determines the
result. Only an actually returned message runs `updateMetrics('received')`
(messagesReceived + 1); an empty queue leaves the metrics untouched; a
driver error goes through `handleError` (errors + 1). -/
def clientGet (connected : Bool) (m : Metrics)
    (driverGet : Except String (Option Nat)) :
    Except String (Option Nat) × Metrics :=
  if connected = false then
    (Except.error "Not connected to RabbitMQ. Call connect() first.", m)
  else
    match driverGet with
    | Except.error e => (Except.error e, { m with errors := m.errors + 1 })
    | Except.ok (some msg) =>
        (Except.ok (some msg),
         { m with messagesReceived := m.messagesReceived + 1 })
    | Except.ok none => (Except.ok none, m)

end RabbitMQ

namespace RabbitMQ

/-! ## Helper lemmas -/

/-- When every confirm in the batch is an ack, the loop hands every
message to the driver in list order and surfaces no error. -/
theorem publishBatchLoop_all_ok (msgs : List (BatchMessage × Option String))
    (h : ∀ p ∈ msgs, p.2 = none) :
    publishBatchLoop msgs = (msgs.map Prod.fst, none) := by
  induction msgs with
  | nil => rfl
  | cons p rest ih =>
      obtain ⟨m, o⟩ := p
      have ho : o = none := h (m, o) (List.mem_cons_self _ _)
      subst ho
      simp [publishBatchLoop,
        ih (fun q hq => h q (List.mem_cons_of_mem _ hq))]

/-- When the confirms of `pre` are all acks and the next message's confirm
fails, the loop hands exactly `pre ++ [m]` to the driver, in order, and
surfaces the failing confirm's error; the messages of `post` are not sent. -/
theorem publishBatchLoop_first_fail
    (pre : List (BatchMessage × Option String))
    (hpre : ∀ p ∈ pre, p.2 = none) (m : BatchMessage) (e : String)
    (post : List (BatchMessage × Option String)) :
    publishBatchLoop (pre ++ (m, some e) :: post)
      = (pre.map Prod.fst ++ [m], some e) := by
  induction pre with
  | nil => rfl
  | cons p rest ih =>
      obtain ⟨m2, o⟩ := p
      have ho : o = none := hpre (m2, o) (List.mem_cons_self _ _)
      subst ho
      simp [publishBatchLoop,
        ih (fun q hq => hpre q (List.mem_cons_of_mem _ hq))]

/-! ## Claim theorems -/

/-- Claim C1, counterexample: `connect` called while the circuit breaker is
open rejects with the plain untyped `Error('Circuit breaker is open')`, and
a channel-acquisition timeout in `getChannel` rejects with the plain
untyped `Error('Channel acquisition timeout')`; neither error carries any
`code` field, so neither carries a code from the §7 taxonomy. -/
theorem C1_counterexample :
    connectBreakerCheck { failures := 5, isOpen := true, lastFailure := some 0 }
      = Except.error (JsError.plain "Circuit breaker is open")
    ∧ errorCode (JsError.plain "Circuit breaker is open") = none
    ∧ getChannel true false false false
      = Except.error (JsError.plain "Channel acquisition timeout")
    ∧ errorCode (JsError.plain "Channel acquisition timeout") = none :=
  ⟨rfl, rfl, rfl, rfl⟩

/-- Claim C1, amended: the failing public operations surface plain untyped
Errors carrying only a message — no `code`, no `details`. The typed
taxonomy of src/errors.ts (e.g. `CircuitBreakerError` with
`ERR_CIRCUIT_BREAKER`, `ChannelError` with `ERR_CHANNEL`) exists but the
client does not construct those errors on these paths. -/
theorem C1_plain_errors (cb : CircuitBreaker) (h : cb.isOpen = true) :
    connectBreakerCheck cb
      = Except.error (JsError.plain "Circuit breaker is open")
    ∧ errorCode (JsError.plain "Circuit breaker is open") = none
    ∧ getChannel true false false false
      = Except.error (JsError.plain "Channel acquisition timeout")
    ∧ errorCode (JsError.plain "Channel acquisition timeout") = none
    ∧ errorCode (mkCircuitBreakerError "Circuit breaker is open" [])
      = some "ERR_CIRCUIT_BREAKER"
    ∧ errorCode (mkChannelError "Channel acquisition timeout" [])
      = some "ERR_CHANNEL" := by
  refine ⟨?_, rfl, rfl, rfl, rfl, rfl⟩
  simp [connectBreakerCheck, h]

/-- Witness for C1_plain_errors at a concrete open breaker state. -/
theorem C1_plain_errors_witness :
    connectBreakerCheck { failures := 1, isOpen := true, lastFailure := some 7 }
      = Except.error (JsError.plain "Circuit breaker is open") :=
  (C1_plain_errors { failures := 1, isOpen := true, lastFailure := some 7 }
    rfl).1

/-- Claim C2, counterexample: for the two-message batch whose second
confirm fails, one message was successfully confirmed, yet
`metrics.messagesSent` is not incremented by 1 — it stays at 0 (the catch
path increments `errors` instead; the increment of `messagesSent` by the
full length only runs after a fully successful loop). -/
theorem C2_counterexample :
    (publishBatch zeroMetrics
        [(msgA, none), (msgB, some "basic.nack")]).1.messagesSent
      ≠ zeroMetrics.messagesSent + 1
    ∧ publishBatch zeroMetrics [(msgA, none), (msgB, some "basic.nack")]
      = ({ zeroMetrics with errors := 1 }, [msgA, msgB], some "basic.nack") := by
  exact ⟨by decide, rfl⟩

/-- Claim C2, amended: messages are handed to the default confirm channel
strictly in list order, each awaiting its own confirm before the next is
sent; a failing confirm surfaces immediately and the remaining messages
are not sent. However `metrics.messagesSent` is incremented by the full
list length only when every message confirms, and by 0 (with
`metrics.errors` incremented by 1) when any confirm fails — never by the
partial count of successful messages. -/
theorem C2_batch_order_and_counter (metrics : Metrics)
    (pre : List (BatchMessage × Option String))
    (hpre : ∀ p ∈ pre, p.2 = none) (m : BatchMessage) (e : String)
    (post : List (BatchMessage × Option String)) :
    publishBatch metrics (pre ++ (m, some e) :: post)
      = ({ metrics with errors := metrics.errors + 1 },
         pre.map Prod.fst ++ [m], some e)
    ∧ (∀ msgs : List (BatchMessage × Option String),
        (∀ p ∈ msgs, p.2 = none) →
        publishBatch metrics msgs
          = ({ metrics with
                messagesSent := metrics.messagesSent + msgs.length },
             msgs.map Prod.fst, none)) := by
  constructor
  · unfold publishBatch
    rw [publishBatchLoop_first_fail pre hpre m e post]
  · intro msgs hm
    unfold publishBatch
    rw [publishBatchLoop_all_ok msgs hm]

/-- Witness for C2_batch_order_and_counter on a concrete failing batch. -/
theorem C2_batch_witness :
    publishBatch zeroMetrics [(msgA, none), (msgB, some "confirm failed")]
      = ({ zeroMetrics with errors := 1 }, [msgA, msgB],
         some "confirm failed") :=
  (C2_batch_order_and_counter zeroMetrics [(msgA, none)] (by decide)
    msgB "confirm failed" []).1

/-- Claim C3, counterexample: `gracefulShutdown` on a live client sets the
shutdown flag during the call, but its `finally` block resets it, so in
the state after the call the flag is `false` again and `reconnect` is no
longer skipped — the flag is not a one-way latch. -/
theorem C3_counterexample :
    (gracefulShutdownMid sampleClient).shutdownInProgress = true
    ∧ (gracefulShutdown sampleClient).shutdownInProgress = false
    ∧ (reconnectEntry (gracefulShutdown sampleClient)).2 = true := by
  exact ⟨rfl, by decide, by decide⟩

/-- Claim C3, amended: `shutdownInProgress` is set only for the duration of
a `gracefulShutdown` call: while it runs, `reconnect` is skipped; the
`finally` block then resets the flag to `false`, so after the call
completes (with timers cleared and connection closed) `reconnect` is no
longer skipped. -/
theorem C3_shutdown_window (s : ClientState)
    (h : s.shutdownInProgress = false) :
    (gracefulShutdownMid s).shutdownInProgress = true
    ∧ (reconnectEntry (gracefulShutdownMid s)).2 = false
    ∧ (gracefulShutdown s).shutdownInProgress = false
    ∧ (reconnectEntry (gracefulShutdown s)).2 = true
    ∧ (gracefulShutdown s).hasConnection = false
    ∧ (gracefulShutdown s).timerCount = 0 := by
  simp [gracefulShutdown, gracefulShutdownMid, closeResources,
    reconnectEntry, h]

/-- Witness for C3_shutdown_window on a concrete live client. -/
theorem C3_shutdown_window_witness :
    (gracefulShutdown sampleClient).shutdownInProgress = false :=
  (C3_shutdown_window sampleClient rfl).2.2.1

/-- Claim C4, counterexample: a broker confirm arriving after 10^9 ms
(far beyond every timeout) makes `publish` fail with the timeout error,
but makes `sendToQueue` succeed — and when the confirm never arrives,
`sendToQueue` never settles at all. No per-call timeout is armed by
`sendToQueue`; its options do not even accept one. -/
theorem C4_counterexample :
    sendToQueueAwait (BrokerConfirm.arrives 1000000000 none)
      = some (Except.ok ())
    ∧ publishAwait none (BrokerConfirm.arrives 1000000000 none)
      = Except.error (JsError.plain "Publish operation timeout")
    ∧ sendToQueueAwait BrokerConfirm.never = none := by
  refine ⟨rfl, ?_, rfl⟩
  simp [publishAwait, jsOrDefault]

/-- Claim C4, amended: `sendToQueue` performs the same confirm-await
sequence as `publish` to the default exchange, agreeing with `publish` on
every confirm that arrives before the 30 s default timeout; but unlike
`publish` it arms no per-call timeout: its outcome is decided solely by
the broker confirm, and when the confirm never arrives the call never
settles, whereas `publish` fails with the timeout error. -/
theorem C4_no_timeout (t : Nat) (ht : t < 30000) (err : Option String) :
    sendToQueueAwait (BrokerConfirm.arrives t err)
      = some (publishAwait none (BrokerConfirm.arrives t err))
    ∧ sendToQueueAwait BrokerConfirm.never = none
    ∧ publishAwait none BrokerConfirm.never
      = Except.error (JsError.plain "Publish operation timeout") := by
  refine ⟨?_, rfl, rfl⟩
  cases err <;>
    simp [sendToQueueAwait, publishAwait, jsOrDefault, Nat.not_le.mpr ht]

/-- Witness for C4_no_timeout at a concrete early confirm. -/
theorem C4_no_timeout_witness :
    sendToQueueAwait (BrokerConfirm.arrives 5 none)
      = some (publishAwait none (BrokerConfirm.arrives 5 none)) :=
  (C4_no_timeout 5 (by decide) none).1

end RabbitMQ

namespace RabbitMQ

/-- Claim C5, counterexample: the value 0 is out of range for each of
heartbeat ([1,60]), reconnectDelay ([1000,60000]) and maxChannels (≥ 1),
yet because every check is guarded by JavaScript truthiness
(`if (options.heartbeat)`, `maxChannels && ...`), an options object with
all three set to 0 validates successfully and construction does not fail. -/
theorem C5_counterexample :
    validateOptions
      { heartbeat := some 0, reconnectDelay := some 0,
        poolConfig := some { maxChannels := 0, acquireTimeout := 5000 } }
      = Except.ok () := rfl

/-- Claim C5, amended: construction succeeds iff every supplied nonzero
value is in range — heartbeat in [1,60], reconnectDelay in [1000,60000],
maxChannels ≥ 1. The falsy value 0 skips its check and is accepted in each
field, as is an absent field. -/
theorem C5_validate_iff (o : ValidatedOptions) :
    validateOptions o = Except.ok ()
    ↔ ((∀ h : Int, o.heartbeat = some h → h ≠ 0 → 1 ≤ h ∧ h ≤ 60)
       ∧ (∀ r : Int, o.reconnectDelay = some r → r ≠ 0 →
            1000 ≤ r ∧ r ≤ 60000)
       ∧ (∀ pc : PoolConfig, o.poolConfig = some pc →
            pc.maxChannels ≠ 0 → 1 ≤ pc.maxChannels)) := by
  obtain ⟨hb, rd, pc⟩ := o
  cases hb <;> cases rd <;> cases pc <;>
    (simp only [validateOptions, jsTruthyNum]
     split_ifs <;>
       simp_all [Bool.and_eq_true, decide_eq_true_eq, bne_iff_ne] <;>
       omega)

/-- Witness for C5_validate_iff at a concrete in-range options object. -/
theorem C5_validate_iff_witness :
    validateOptions
      { heartbeat := some 30, reconnectDelay := some 5000,
        poolConfig := some { maxChannels := 10, acquireTimeout := 5000 } }
      = Except.ok () :=
  (C5_validate_iff _).mpr
    ⟨by intro h hh hne; injection hh with e; omega,
     by intro r hr hne; injection hr with e; omega,
     by intro q hq hne; injection hq with e; rw [← e]; norm_num⟩

/-- Claim C6, confirmed: for a configured reconnectDelay in its validated
range [1 ms, 60000 ms], every attempt number and every random draw in
[0, 1] (hence every jitter within ±20% of the exponential term), the
computed delay lies in the closed interval [reconnectDelay, 60000]; with
exponential backoff disabled it equals reconnectDelay exactly. -/
theorem C6_delay_bounds (d : Rat) (hd1 : 1 ≤ d) (hd2 : d ≤ 60000)
    (eb : Bool) (n : Nat) (r : Rat) (_hr0 : 0 ≤ r) (_hr1 : r ≤ 1) :
    (d ≤ calculateReconnectDelay (some d) eb n r
     ∧ calculateReconnectDelay (some d) eb n r ≤ 60000)
    ∧ (eb = false → calculateReconnectDelay (some d) eb n r = d) := by
  have hd0 : d ≠ 0 := by
    intro h
    rw [h] at hd1
    norm_num at hd1
  cases eb with
  | false =>
      refine ⟨⟨?_, ?_⟩, fun _ => ?_⟩ <;>
        simp [calculateReconnectDelay, hd0, hd2]
  | true =>
      have he : calculateReconnectDelay (some d) true n r
          = max d (min (min (d * 2 ^ n) 60000
              + min (d * 2 ^ n) 60000 * (1 / 5) * (r * 2 - 1)) 60000) := by
        simp [calculateReconnectDelay, hd0]
      refine ⟨⟨?_, ?_⟩, fun h => by simp at h⟩
      · rw [he]
        exact le_max_left _ _
      · rw [he]
        exact max_le hd2 (min_le_right _ _)

/-- Witness for C6_delay_bounds at a concrete configuration. -/
theorem C6_delay_bounds_witness :
    5000 ≤ calculateReconnectDelay (some 5000) true 3 (1 / 2)
    ∧ calculateReconnectDelay (some 5000) true 3 (1 / 2) ≤ 60000 :=
  (C6_delay_bounds 5000 (by norm_num) (by norm_num) true 3 (1 / 2)
    (by norm_num) (by norm_num)).1

/-- Once a message is acknowledged, every further `ack`/`nack`/`reject`
call only adds warnings and leaves the driver calls untouched. -/
theorem runActions_acknowledged (ks : List SettleKind) :
    ∀ s : ActionsState, s.acknowledged = true →
      runActions s ks = { s with warnings := s.warnings + ks.length } := by
  induction ks with
  | nil => intro s _; rfl
  | cons k ks ih =>
      intro s h
      rw [runActions, runAction, if_pos h,
        ih { s with warnings := s.warnings + 1 } h]
      simp only [List.length_cons]
      congr 1
      omega

/-- Claim C7, confirmed: in manual-ack mode, for every sequence of
`ack`/`nack`/`reject` calls the handler makes on one message, exactly the
first call (if any) reaches the driver — the driver sees `ks.take 1` —
and every subsequent call is a no-op that only logs a warning. -/
theorem C7_settle_once (ks : List SettleKind) :
    (runActions startActions ks).driverCalls = ks.take 1
    ∧ (runActions startActions ks).warnings + (ks.take 1).length
        = ks.length := by
  cases ks with
  | nil => exact ⟨rfl, rfl⟩
  | cons k ks =>
      have h1 : runAction startActions k
          = { acknowledged := true, driverCalls := [k], warnings := 0 } := rfl
      have h2 := runActions_acknowledged ks
        { acknowledged := true, driverCalls := [k], warnings := 0 } rfl
      rw [runActions, h1, h2]
      refine ⟨rfl, ?_⟩
      simp

/-- When every URL attempt in reach fails, the connect loop reports
failure. -/
theorem establishAttempts_false (outcome : Nat → Bool)
    (h : ∀ j, j < 5 → outcome j = false) :
    ∀ fuel i, i + fuel ≤ 5 → establishAttempts outcome i fuel = false := by
  intro fuel
  induction fuel with
  | zero => intro i _; rfl
  | succ f ih =>
      intro i hle
      rw [establishAttempts, h i (by omega)]
      exact ih (i + 1) (by omega)

/-- In every reachable breaker state, the open flag agrees with
`failures ≥ threshold` (for any positive threshold). -/
theorem breaker_invariant {t : Nat} (ht : 1 ≤ t) {cb : CircuitBreaker}
    (h : ReachableBreaker t cb) :
    cb.isOpen = true ↔ t ≤ cb.failures := by
  induction h with
  | init =>
      simp [initialBreaker]
      omega
  | fail now hr ih =>
      simp [handleConnectionError]
  | reset hr ih =>
      simp [resetCircuitBreakerState]
      omega

/-- Claim C8, confirmed: in every reachable breaker state,
`isOpen ⇔ failures ≥ failureThreshold` (threshold ≥ 1); every successful
connect resets the breaker to `failures=0, isOpen=false, lastFailure=null`;
and an outer connect cycle that exhausts all 5 URL attempts increments
`failures` exactly once — by 1, not by 5. -/
theorem C8_breaker (t : Nat) (ht : 1 ≤ t) (cb : CircuitBreaker)
    (hreach : ReachableBreaker t cb) (now : Nat) (outcome : Nat → Bool)
    (hexhaust : ∀ i, i < 5 → outcome i = false) :
    (cb.isOpen = true ↔ t ≤ cb.failures)
    ∧ (∀ o2 : Nat → Bool, establishAttempts o2 0 5 = true →
        (establishConnection t now cb o2).1 = initialBreaker)
    ∧ (establishConnection t now cb outcome).1.failures = cb.failures + 1
    ∧ (establishConnection t now cb outcome).1.lastFailure = some now := by
  have hfalse : establishAttempts outcome 0 5 = false :=
    establishAttempts_false outcome hexhaust 5 0 (by omega)
  refine ⟨breaker_invariant ht hreach, ?_, ?_, ?_⟩
  · intro o2 h2
    simp [establishConnection, h2, resetCircuitBreakerState, initialBreaker]
  · simp [establishConnection, hfalse, handleConnectionError]
  · simp [establishConnection, hfalse, handleConnectionError]

/-- Witness for C8_breaker: a fresh breaker after one exhausted connect
cycle has exactly one failure. -/
theorem C8_breaker_witness :
    (establishConnection 1 0 initialBreaker (fun _ => false)).1.failures
      = initialBreaker.failures + 1 :=
  (C8_breaker 1 (by decide) initialBreaker ReachableBreaker.init 0
    (fun _ => false) (fun _ _ => rfl)).2.2.1

/-- Claim C9, confirmed: when the `url` option is a connect-options
object, only its `hostname` becomes the sole element of the internal URL
list — the result depends on no other field — and when the object has no
hostname (or an empty one) the list becomes empty. -/
theorem C9_url_object (o : ConnectOpts) (urls : List String) :
    (∀ h : String, o.hostname = some h → h ≠ "" →
        initUrls (some (UrlOption.obj o)) urls = [h])
    ∧ (o.hostname = none → initUrls (some (UrlOption.obj o)) urls = [])
    ∧ (o.hostname = some "" → initUrls (some (UrlOption.obj o)) urls = [])
    ∧ (∀ o2 : ConnectOpts, o2.hostname = o.hostname →
        initUrls (some (UrlOption.obj o2)) urls
          = initUrls (some (UrlOption.obj o)) urls) := by
  refine ⟨?_, ?_, ?_, ?_⟩
  · intro h hh hne
    simp [initUrls, urlTruthy, urlField, hh, hne]
  · intro hh
    simp [initUrls, urlTruthy, urlField, hh]
  · intro hh
    simp [initUrls, urlTruthy, urlField, hh]
  · intro o2 h2
    simp [initUrls, urlTruthy, urlField, h2]

/-- Witness for C9_url_object: a full connect-options object contributes
only its hostname. -/
theorem C9_url_object_witness :
    initUrls
      (some (UrlOption.obj
        { protocol := some "amqp", hostname := some "rabbit1",
          port := some 5672, username := some "guest",
          password := some "guest", vhost := some "/" }))
      ["amqp://configured"] = ["rabbit1"] :=
  (C9_url_object _ _).1 "rabbit1" rfl (by decide)

/-- Claim C10, confirmed: `get` on an empty queue returns the empty result
and leaves messagesSent, messagesReceived, errors, reconnections and
avgProcessingTime all unchanged; messagesReceived is incremented (by
exactly 1) only when a message is actually returned, and a driver error
does not touch messagesReceived either. -/
theorem C10_get_frame (m : Metrics) (msg : Nat) (e : String) :
    clientGet true m (Except.ok none) = (Except.ok none, m)
    ∧ (clientGet true m (Except.ok none)).2.messagesSent = m.messagesSent
    ∧ (clientGet true m (Except.ok none)).2.messagesReceived
        = m.messagesReceived
    ∧ (clientGet true m (Except.ok none)).2.errors = m.errors
    ∧ (clientGet true m (Except.ok none)).2.reconnections = m.reconnections
    ∧ (clientGet true m (Except.ok none)).2.avgProcessingTime
        = m.avgProcessingTime
    ∧ (clientGet true m (Except.ok (some msg))).2
        = { m with messagesReceived := m.messagesReceived + 1 }
    ∧ (clientGet true m (Except.error e)).2.messagesReceived
        = m.messagesReceived :=
  ⟨rfl, rfl, rfl, rfl, rfl, rfl, rfl, rfl⟩

end RabbitMQ
